import Mathlib

/-!
Verification development for the MongoIndexRaptor repository
(src/mongo_index_perf_test: models.py, tester.py, main.py, formatters.py,
config.py, connection.py).

The Python code is shallowly embedded as follows.

Python dictionaries that carry query documents or index hints are modelled
as association lists in insertion order: a dict preserves insertion order,
so a hint dict corresponds to an ordered list of (key, value) pairs, and
tuple(hint.items()) corresponds to the list itself.

Floating point times are modelled as rationals.  Python exceptions are
modelled as values of the PyErr type, and a Python callable that may raise
is modelled as a function into Except PyErr.  A dataclass constructor call
with keyword arguments is modelled by checking the keyword names against
the list of fields declared by the dataclass, exactly as CPython does when
it builds the generated init method: an unknown keyword raises TypeError.
-/

/-- Python exception values relevant to this code base.  ConnectionFailure is a
subclass of PyMongoError, which is reflected in PyErr.isPyMongo below. -/
inductive PyErr where
  | connectionFailure (msg : String)
  | pyMongo (msg : String)
  | typeError (msg : String)
  | statisticsError (msg : String)
  | indexError (msg : String)
  | attributeError (msg : String)
  | valueError (msg : String)
  | keyError (msg : String)
  | nameError (msg : String)
deriving DecidableEq

/-- Test of "except errors.PyMongoError": ConnectionFailure is a PyMongoError
subclass, the remaining modelled exception classes are not. -/
def PyErr.isPyMongo : PyErr → Bool
  | .connectionFailure _ => true
  | .pyMongo _ => true
  | _ => false

/-- Test of "except errors.ConnectionFailure". -/
def PyErr.isConnectionFailure : PyErr → Bool
  | .connectionFailure _ => true
  | _ => false

/-- Python str(e) for an exception value: the carried message. -/
def PyErr.str : PyErr → String
  | .connectionFailure m | .pyMongo m | .typeError m | .statisticsError m
  | .indexError m | .attributeError m | .valueError m | .keyError m
  | .nameError m => m

/-- A BSON-like document, as an insertion-ordered list of (key, value) pairs.
Only ordering, emptiness and equality of documents matter to the claims, so
values are collapsed to integers. -/
abbrev Doc := List (String × Int)

/-- An index hint: a dict from field name to direction, in insertion order.
tuple(hint.items()) is the list itself. -/
abbrev Hint := List (String × Int)

/-- The query dict handed to the tester: keys filter, project, sort, skip,
limit; a key that is absent (query.get returns None) is modelled as none. -/
structure QuerySpec where
  filter : Doc
  project : Option Doc
  sort : Option Doc
  skip : Option Int
  limit : Option Int
deriving DecidableEq

/-- Python truthiness of query.get for a document-valued key: None and the
empty dict are falsy. -/
def truthy_opt_doc : Option Doc → Bool
  | none => false
  | some d => !d.isEmpty

/-- Python truthiness of query.get for an int-valued key: None and 0 are
falsy. -/
def truthy_opt_int : Option Int → Bool
  | none => false
  | some n => n != 0

/-- The observable state of a pymongo cursor: the find filter and projection,
and the sort, skip, limit and hint attributes.  In pymongo, skip and limit
start at 0 and are plain integers (limit 0 means no limit), while sort and
hint start as None. -/
structure Cursor where
  filter : Doc
  projection : Option Doc
  sortSpec : Option Doc
  skipN : Int
  limitN : Int
  hintSpec : Option Hint
deriving DecidableEq

/-- IndexPerformanceTester build query cursor (tester.py lines 204 to 214):
find from filter, and projection only when the project key is not None;
then sort, skip, limit each applied only when truthy; then the hint applied
only when the hint dict is non-empty. -/
def build_query_cursor (query : QuerySpec) (index_hint : Hint) : Cursor :=
  let c : Cursor :=
    { filter := query.filter, projection := query.project, sortSpec := none,
      skipN := 0, limitN := 0, hintSpec := none }
  let c := if truthy_opt_doc query.sort then { c with sortSpec := query.sort } else c
  let c := if truthy_opt_int query.skip then { c with skipN := query.skip.getD 0 } else c
  let c := if truthy_opt_int query.limit then { c with limitN := query.limit.getD 0 } else c
  if index_hint.isEmpty then c else { c with hintSpec := some index_hint }

/-- The cursor executed by each warm-up iteration (tester.py line 105):
the built cursor with an extra .limit(0) applied, which overwrites the
cursor limit attribute with 0 (in MongoDB, limit 0 means no limit). -/
def warmup_cursor (query : QuerySpec) (index_hint : Hint) : Cursor :=
  { build_query_cursor query index_hint with limitN := 0 }

/-- The cursor executed and timed by each timed iteration (tester.py
line 127). -/
def timed_phase_cursor (query : QuerySpec) (index_hint : Hint) : Cursor :=
  build_query_cursor query index_hint

/-- The cursor whose explain is taken when execution stats are sampled
(tester.py line 159). -/
def explain_cursor (query : QuerySpec) (index_hint : Hint) : Cursor :=
  build_query_cursor query index_hint

/-- Modelled from the spec words of the query-builder rule, for comparison
with the code: build from filter and, if present, project; apply sort, skip,
limit only if each is present and truthy; apply the hint only if non-empty. -/
def builder_rule_spec (query : QuerySpec) (index_hint : Hint) : Cursor :=
  { filter := query.filter
    projection := query.project
    sortSpec := if truthy_opt_doc query.sort then query.sort else none
    skipN := if truthy_opt_int query.skip then query.skip.getD 0 else 0
    limitN := if truthy_opt_int query.limit then query.limit.getD 0 else 0
    hintSpec := if index_hint.isEmpty then none else some index_hint }

/-- Python sorted on a list of floats (tester.py line 178 and the internal
sort done by statistics.quantiles). -/
def pySorted (xs : List ℚ) : List ℚ := List.insertionSort (· ≤ ·) xs

/-- statistics.mean: the arithmetic mean.  statistics.mean raises
StatisticsError on an empty sequence; every call site below either guards
emptiness or models that error explicitly. -/
def pyMean (xs : List ℚ) : ℚ := xs.sum / xs.length

/-- The value of "statistics.mean(xs) if xs else 0.0" for an integer sample
list (tester.py lines 199 to 201). -/
def mean_or_zero (xs : List Nat) : ℚ :=
  if xs.isEmpty then 0 else ((xs.map (fun n => (n : ℚ))).sum) / xs.length

/-- Model of statistics.stdev through its square, the sample variance with
denominator n - 1.  The true standard deviation is the square root of this
quantity, which is irrational in general and hence not representable in the
rational-valued model; no theorem below inspects this value. -/
def stdev_model (xs : List ℚ) : ℚ :=
  (xs.map (fun x => (x - pyMean xs) ^ 2)).sum / ((xs.length : ℚ) - 1)

/-- The index j of the CPython exclusive quantile method for data length ld
and cut point i of n = 100: i * (ld + 1) // 100, clamped into
[1, ld - 1]. -/
def qe_j (ld i : Nat) : Nat :=
  if i * (ld + 1) / 100 < 1 then 1
  else if ld - 1 < i * (ld + 1) / 100 then ld - 1
  else i * (ld + 1) / 100

/-- The delta of the CPython exclusive quantile method: the exact integer
i * (ld + 1) - j * 100, computed from the clamped j, so it can leave
[0, 100) when j was clamped. -/
def qe_delta (ld i : Nat) : Int :=
  ((i * (ld + 1) : Nat) : Int) - (qe_j ld i : Int) * 100

/-- One entry of statistics.quantiles(s, n=100) for already sorted data s,
following the CPython exclusive method: interpolate s[j - 1] and s[j] with
weights (100 - delta) and delta.  Because delta is computed from the
clamped j, the result extrapolates beyond the data when j was clamped.
List indexing is total here via getD; every index used is in range
whenever the length is at least 2, which statistics.quantiles requires. -/
def quantile_exclusive (s : List ℚ) (i : Nat) : ℚ :=
  (s.getD (qe_j s.length i - 1) 0 * ((100 : ℚ) - (qe_delta s.length i : ℚ))
    + s.getD (qe_j s.length i) 0 * (qe_delta s.length i : ℚ)) / 100

/-- The percentile_95 expression of tester.py lines 189 to 193:
statistics.quantiles(sorted_times, n=100)[94] when there are at least 5
samples, else 0.0.  Index 94 of the 99 returned cut points is the 95th. -/
def percentile_95 (times : List ℚ) : ℚ :=
  if 5 ≤ times.length then quantile_exclusive (pySorted times) 95 else 0

/-- The percentile_99 expression of tester.py lines 194 to 198. -/
def percentile_99 (times : List ℚ) : ℚ :=
  if 5 ≤ times.length then quantile_exclusive (pySorted times) 99 else 0

/-- min of the timed samples: sorted_times[0] (tester.py line 186). -/
def py_min_time (times : List ℚ) : ℚ := (pySorted times).getD 0 0

/-- max of the timed samples: sorted_times[-1], the last element of the
sorted list (tester.py line 187). -/
def py_max_time (times : List ℚ) : ℚ :=
  (pySorted times).getD ((pySorted times).length - 1) 0

/-- The fields declared by the TestResult dataclass (models.py lines 4 to
20), in declaration order.  Note that avg_docs_returned is not among
them. -/
def testResultFields : List String :=
  ["query", "hint", "iteration", "warmup_iteration", "sample_interval",
   "avg_time", "min_time", "max_time", "stdev_time", "percentile_95",
   "percentile_99", "avg_docs_examined", "avg_keys_examined", "error"]

/-- The keyword argument names of the TestResult construction in
IndexPerformanceTester calculate results (tester.py lines 179 to 202). -/
def calcResultKwargs : List String :=
  ["query", "hint", "iteration", "warmup_iteration", "sample_interval",
   "avg_time", "min_time", "max_time", "stdev_time", "percentile_95",
   "percentile_99", "avg_docs_examined", "avg_keys_examined",
   "avg_docs_returned"]

/-- The TestResult dataclass (models.py): one Lean field per dataclass
field, with the dataclass defaults. -/
structure TestResult where
  query : QuerySpec
  hint : Hint
  iteration : Int
  warmup_iteration : Int
  sample_interval : Int
  avg_time : ℚ
  min_time : ℚ
  max_time : ℚ
  stdev_time : ℚ
  percentile_95 : ℚ := 0
  percentile_99 : ℚ := 0
  avg_docs_examined : ℚ := 0
  avg_keys_examined : ℚ := 0
  error : Option String := none
deriving DecidableEq

/-- IndexPerformanceTester calculate results (tester.py lines 164 to 202).
CPython first evaluates every keyword argument expression, so
statistics.mean(sorted_times) raises StatisticsError when no timed
iteration ran; then the dataclass init raises TypeError because the call
passes an avg_docs_returned keyword and TestResult declares no such field.
The success branch, which packages the computed statistics, is kept for
faithfulness although the keyword check never lets it run. -/
def calculate_results (query : QuerySpec) (index_hint : Hint)
    (iteration warmup_iteration sample_interval : Int) (times : List ℚ)
    (docs_examined keys_examined docs_returned : List Nat) :
    Except PyErr TestResult :=
  if times = [] then
    .error (.statisticsError "mean requires at least one data point")
  else
  let _avg_docs_returned := mean_or_zero docs_returned
  if calcResultKwargs.all (fun k => k ∈ testResultFields) then
    .ok { query := query, hint := index_hint, iteration := iteration,
          warmup_iteration := warmup_iteration,
          sample_interval := sample_interval,
          avg_time := pyMean (pySorted times),
          min_time := py_min_time times,
          max_time := py_max_time times,
          stdev_time := if 1 < times.length then stdev_model (pySorted times) else 0,
          percentile_95 := percentile_95 times,
          percentile_99 := percentile_99 times,
          avg_docs_examined := mean_or_zero docs_examined,
          avg_keys_examined := mean_or_zero keys_examined,
          error := none }
  else
    .error (.typeError "init got an unexpected keyword argument avg_docs_returned")

/-- The TestResult built by the except branch of test index performance
(tester.py lines 53 to 66): every keyword used there is a declared field,
the four explicit timing fields are zero and the remaining numeric fields
keep their dataclass default 0.0. -/
def error_test_result (query : QuerySpec) (index_hint : Hint)
    (iterations warmup_iterations sample_interval : Int) (msg : String) :
    TestResult :=
  { query := query, hint := index_hint, iteration := iterations,
    warmup_iteration := warmup_iterations, sample_interval := sample_interval,
    avg_time := 0, min_time := 0, max_time := 0, stdev_time := 0,
    error := some msg }

/-- Python tuple comparison on dotted version tuples: lexicographic, a
strict prefix being smaller. -/
def version_lt : List Nat → List Nat → Bool
  | [], [] => false
  | [], _ :: _ => true
  | _ :: _, [] => false
  | a :: as1, b :: bs => if a < b then true else if b < a then false else version_lt as1 bs

/-- The two cache-clear command shapes of clear plan cache (tester.py
lines 77 to 87). -/
inductive CacheClearCmd where
  | adminNamespaced (db coll : String)
  | legacy (db coll : String)
deriving DecidableEq

/-- Version-threshold choice of the cache-clear command (tester.py line 78):
the namespaced admin command from version (4, 4) on, the legacy form
before. -/
def cache_clear_command (version : List Nat) (db coll : String) : CacheClearCmd :=
  if version_lt version [4, 4] then .legacy db coll else .adminNamespaced db coll

/-- The environment a test run executes against: the outcome of the
buildInfo admin command, the outcome of the plan-cache-clear command, and,
per cursor and per iteration index, the outcome of executing a find (the
materialized document count), the elapsed wall time measured for the
iteration, and the outcome of an explain (totalDocsExamined,
totalKeysExamined). -/
structure DBEnv where
  buildInfo : Except PyErr (List Nat)
  planCacheClear : Option PyErr
  warmupFind : Cursor → Nat → Option PyErr
  timedFind : Cursor → Nat → Except PyErr Nat
  elapsed : Nat → ℚ
  explainStats : Cursor → Nat → Except PyErr (Nat × Nat)

/-- IndexPerformanceTester clear plan cache (tester.py lines 68 to 89): the
buildInfo lookup is outside the inner try, so its failure propagates; the
clear command itself is issued inside a try whose except clause catches
PyMongoError and only warns, so only a non-PyMongoError failure of the
clear command propagates. -/
def clear_plan_cache (env : DBEnv) (database collection : String) :
    Except PyErr Unit :=
  match env.buildInfo with
  | .error e => .error e
  | .ok version =>
    let _cmd := cache_clear_command version database collection
    match env.planCacheClear with
    | none => .ok ()
    | some e => if e.isPyMongo then .ok () else .error e

/-- The warm-up loop of perform warmup (tester.py lines 101 to 105) over an
explicit list of iteration indices: each iteration executes the warm-up
cursor and the first failure propagates. -/
def warmup_loop (find : Nat → Option PyErr) : List Nat → Except PyErr Unit
  | [] => .ok ()
  | i :: rest =>
    match find i with
    | some e => .error e
    | none => warmup_loop find rest

/-- IndexPerformanceTester perform warmup (tester.py lines 91 to 105):
range(warmup_iterations) iterations of the warm-up cursor; a negative
count, like range in Python, yields no iterations. -/
def perform_warmup (env : DBEnv) (query : QuerySpec) (index_hint : Hint)
    (warmup_iterations : Int) : Except PyErr Unit :=
  warmup_loop (env.warmupFind (warmup_cursor query index_hint))
    (List.range warmup_iterations.toNat)

/-- The sample lists accumulated by perform testing (tester.py lines 118
to 121), in the order of the returned tuple. -/
structure Samples where
  times : List ℚ
  docs_examined : List Nat
  keys_examined : List Nat
  docs_returned : List Nat
deriving DecidableEq

/-- The plan-sampling guard of tester.py lines 134 to 136: sample when
sample_interval is positive and the iteration index is a multiple of it or
is the last iteration. -/
def should_sample (sample_interval : Int) (i : Nat) (iterations : Int) : Bool :=
  decide (0 < sample_interval) &&
    (decide ((i : Int) % sample_interval = 0) || decide ((i : Int) = iterations - 1))

/-- One timed iteration (tester.py lines 123 to 144): execute and count the
timed cursor, record the elapsed time, and, when sampled, run the explain
and append its two counters; any failure propagates. -/
def testing_step (find : Nat → Except PyErr Nat) (elapsed : Nat → ℚ)
    (explain : Nat → Except PyErr (Nat × Nat)) (sample_interval iterations : Int)
    (acc : Samples) (i : Nat) : Except PyErr Samples :=
  match find i with
  | .error e => .error e
  | .ok result_count =>
    let acc := { acc with docs_returned := acc.docs_returned ++ [result_count],
                          times := acc.times ++ [elapsed i] }
    if should_sample sample_interval i iterations then
      match explain i with
      | .error e => .error e
      | .ok stats =>
        .ok { acc with docs_examined := acc.docs_examined ++ [stats.1],
                       keys_examined := acc.keys_examined ++ [stats.2] }
    else
      .ok acc

/-- The timed loop over an explicit list of iteration indices. -/
def testing_loop (find : Nat → Except PyErr Nat) (elapsed : Nat → ℚ)
    (explain : Nat → Except PyErr (Nat × Nat)) (sample_interval iterations : Int) :
    List Nat → Samples → Except PyErr Samples
  | [], acc => .ok acc
  | i :: rest, acc =>
    match testing_step find elapsed explain sample_interval iterations acc i with
    | .error e => .error e
    | .ok acc2 => testing_loop find elapsed explain sample_interval iterations rest acc2

/-- IndexPerformanceTester perform testing (tester.py lines 107 to 146):
range(iterations) timed iterations starting from empty sample lists. -/
def perform_testing (env : DBEnv) (query : QuerySpec) (index_hint : Hint)
    (iterations sample_interval : Int) : Except PyErr Samples :=
  testing_loop (env.timedFind (timed_phase_cursor query index_hint)) env.elapsed
    (env.explainStats (explain_cursor query index_hint)) sample_interval iterations
    (List.range iterations.toNat) { times := [], docs_examined := [],
                                    keys_examined := [], docs_returned := [] }

/-- The body of the try block of test index performance (tester.py lines 28
to 51): clear the plan cache, warm up, run the timed phase, reduce. -/
def run_harness_body (env : DBEnv) (database collection : String)
    (query : QuerySpec) (index_hint : Hint)
    (iterations warmup_iterations sample_interval : Int) :
    Except PyErr TestResult :=
  match clear_plan_cache env database collection with
  | .error e => .error e
  | .ok _ =>
    match perform_warmup env query index_hint warmup_iterations with
    | .error e => .error e
    | .ok _ =>
      match perform_testing env query index_hint iterations sample_interval with
      | .error e => .error e
      | .ok samples =>
        calculate_results query index_hint iterations warmup_iterations
          sample_interval samples.times samples.docs_examined
          samples.keys_examined samples.docs_returned

/-- IndexPerformanceTester test index performance (tester.py lines 17 to
66): run the harness body under "except errors.PyMongoError", which turns a
PyMongoError into the error TestResult; any other exception escapes to the
caller, modelled as an error outcome of this function. -/
def test_index_performance (env : DBEnv) (database collection : String)
    (query : QuerySpec) (index_hint : Hint)
    (iterations warmup_iterations sample_interval : Int) :
    Except PyErr TestResult :=
  match run_harness_body env database collection query index_hint iterations
      warmup_iterations sample_interval with
  | .ok r => .ok r
  | .error e =>
    if e.isPyMongo then
      .ok (error_test_result query index_hint iterations warmup_iterations
            sample_interval e.str)
    else
      .error e

/-- The state of the per-query hint loop of main (main.py lines 117 to 139):
the successful results collected so far and the tested_hints set, here a
list of the hint tuples added, membership being tuple equality.  The
executed list is model instrumentation only: it records, in order, the
hints for which the harness was actually invoked, so that skipping is
observable. -/
structure HintLoopState where
  results : List TestResult
  testedHints : List Hint
  executed : List Hint
deriving DecidableEq

/-- The per-query hint loop of main (main.py lines 119 to 139): a hint whose
tuple of items is already in tested_hints is skipped; otherwise the harness
runs, and only a result without error is kept and marks the hint tested. -/
def hint_loop (run : Hint → TestResult) : List Hint → HintLoopState → HintLoopState
  | [], st => st
  | h :: rest, st =>
    if h ∈ st.testedHints then
      hint_loop run rest st
    else
      let r := run h
      let st1 : HintLoopState := { st with executed := st.executed ++ [h] }
      let st2 :=
        if r.error = none then
          { st1 with results := st1.results ++ [r], testedHints := st1.testedHints ++ [h] }
        else st1
      hint_loop run rest st2

/-- The hint loop started from empty results and an empty tested set, as
main does per query. -/
def process_hints (run : Hint → TestResult) (hints : List Hint) : HintLoopState :=
  hint_loop run hints { results := [], testedHints := [], executed := [] }

/-- First-occurrence deduplication of a hint list by plain list equality,
relative to an already-seen set; the reference function the hint loop is
compared against. -/
def dedup_first (seen : List Hint) : List Hint → List Hint
  | [] => []
  | h :: rest =>
    if h ∈ seen then dedup_first seen rest
    else h :: dedup_first (seen ++ [h]) rest

/-- The names bound at module level in main.py: its imports (sys, json,
time, argparse, os, datetime, List, ObjectId, DEFAULT_CONFIG, logger,
MongoDBConnection, TestQuery, TestResult, IndexPerformanceTester, the three
formatters) and its own definitions.  The pymongo errors module is not
imported there. -/
def main_module_names : List String :=
  ["sys", "json", "time", "argparse", "os", "datetime", "List", "ObjectId",
   "DEFAULT_CONFIG", "logger", "MongoDBConnection", "TestQuery", "TestResult",
   "IndexPerformanceTester", "TableFormatter", "CSVFormatter", "JSONFormatter",
   "json_object_hook", "load_test_queries", "save_results", "main"]

/-- Outcome of the outer connection loop of main: a successful attempt that
breaks out, sys.exit(1) on exhausted retries, an exception escaping the
loop uncaught, or the loop running out of attempts without a break (only
possible with zero configured retries).  Each outcome records the backoff
sleeps performed, in order. -/
inductive RetryOutcome where
  | connected (sleeps : List ℚ) (attemptsUsed : Nat)
  | exitedNonzero (sleeps : List ℚ)
  | uncaught (e : PyErr) (sleeps : List ℚ)
  | fellThrough (sleeps : List ℚ)
deriving DecidableEq

/-- The outer connection loop of main (main.py lines 107 to 160), with
remaining attempts counted down.  When the try block raises, CPython first
evaluates the expression "errors.ConnectionFailure" of the except clause;
resolve records whether the name errors resolves in the scope of main, and
when it does not the handler itself raises NameError, so nothing is caught,
no sleep happens and the original backoff logic is dead.  With the name
resolved, a ConnectionFailure before the last attempt sleeps
retry_delay_base ** attempt and retries, on the last attempt exits with a
non-zero status, and any other exception propagates. -/
def retry_go (resolve : Bool) (outcome : Nat → Option PyErr) (base : ℚ) :
    Nat → Nat → List ℚ → RetryOutcome
  | _, 0, sleeps => .fellThrough sleeps
  | attempt, remaining + 1, sleeps =>
    match outcome attempt with
    | none => .connected sleeps attempt
    | some e =>
      if resolve = false then
        .uncaught (.nameError "name errors is not defined") sleeps
      else if e.isConnectionFailure then
        if 0 < remaining then
          retry_go resolve outcome base (attempt + 1) remaining (sleeps ++ [base ^ attempt])
        else
          .exitedNonzero sleeps
      else
        .uncaught e sleeps

/-- The connection loop as main runs it: the handler resolves the name
errors against the module namespace of main.py, starting at attempt 0 with
max_retries attempts and no sleeps performed. -/
def main_retry_loop (outcome : Nat → Option PyErr) (max_retries : Nat)
    (retry_delay_base : ℚ) : RetryOutcome :=
  retry_go (main_module_names.contains "errors") outcome retry_delay_base
    0 max_retries []

/-- The attribute names read from each result row by TableFormatter.format
(formatters.py lines 32 to 49), in access order. -/
def tableRowAttrs : List String :=
  ["hint", "iteration", "warmup_iteration", "sample_interval", "avg_time",
   "min_time", "max_time", "stdev_time", "percentile_95", "percentile_99",
   "avg_docs_examined", "avg_keys_examined", "avg_docs_returned"]

/-- The attribute names read from each result row by CSVFormatter.format
(formatters.py lines 57 to 65), in access order. -/
def csvRowAttrs : List String :=
  ["query", "hint", "iteration", "warmup_iteration", "sample_interval",
   "avg_time", "min_time", "max_time", "stdev_time", "percentile_95",
   "percentile_99", "avg_docs_examined", "avg_keys_examined",
   "avg_docs_returned", "error"]

/-- The header line written by CSVFormatter.format (formatters.py
line 55). -/
def csvHeader : String :=
  "Query ID,Index Hint,Iteration,Warmup Iteration,Sample Interval,Avg Time (s),Min Time (s),Max Time (s),StdDev,95th %,99th %,Avg Docs,Avg Keys,Avg Returned,Error"

/-- The structured content of a rendered table: the query taken from
results[0], the column headers, and one entry per result row.  String
rendering of numbers is not modelled; a row stands for its rendered
line. -/
structure TableBlock where
  titleQuery : QuerySpec
  fieldNames : List String
  rows : List TestResult
deriving DecidableEq

/-- The structured content of a rendered CSV document: the header line and
one entry per result row. -/
structure CsvBlock where
  header : String
  rows : List TestResult
deriving DecidableEq

/-- TableFormatter.format (formatters.py lines 13 to 50): the title reads
results[0].query, which raises IndexError on an empty result list; with a
non-empty list, rendering the first row reads result.avg_docs_returned,
an attribute the TestResult dataclass does not declare, which raises
AttributeError. -/
def table_format (results : List TestResult) : Except PyErr TableBlock :=
  match results with
  | [] => .error (.indexError "list index out of range")
  | r0 :: _ =>
    if tableRowAttrs.all (fun a => a ∈ testResultFields) then
      .ok { titleQuery := r0.query, fieldNames := tableRowAttrs, rows := results }
    else
      .error (.attributeError "TestResult object has no attribute avg_docs_returned")

/-- CSVFormatter.format (formatters.py lines 53 to 67): the header is
always produced; each row again reads result.avg_docs_returned, so the row
loop raises AttributeError as soon as there is at least one result. -/
def csv_format (results : List TestResult) : Except PyErr CsvBlock :=
  match results with
  | [] => .ok { header := csvHeader, rows := [] }
  | _ :: _ =>
    if csvRowAttrs.all (fun a => a ∈ testResultFields) then
      .ok { header := csvHeader, rows := results }
    else
      .error (.attributeError "TestResult object has no attribute avg_docs_returned")

/-- JSONFormatter.format (formatters.py lines 70 to 72): json.dumps of
result.to_dict() per result; dataclasses.asdict serializes exactly the
declared fields, so this never consults a missing attribute and the output
is the structural serialization of the result list itself. -/
def json_format (results : List TestResult) : Except PyErr (List TestResult) :=
  .ok results

/-- The output format choices accepted by the command line
(main.py lines 85 to 89). -/
inductive OutputFormat where
  | table
  | csv
  | json
deriving DecidableEq

/-- A formatted output document, tagged by format. -/
inductive FormattedOutput where
  | table (b : TableBlock)
  | csv (b : CsvBlock)
  | json (l : List TestResult)
deriving DecidableEq

/-- The formatter dispatch of save_results (main.py lines 53 to 64) applied
to the collected results of one query. -/
def save_results_format (fmt : OutputFormat) (results : List TestResult) :
    Except PyErr FormattedOutput :=
  match fmt with
  | .table => (table_format results).map .table
  | .csv => (csv_format results).map .csv
  | .json => (json_format results).map .json

/-- The TestQuery dataclass (models.py lines 27 to 34). -/
structure TestQuery where
  name : String
  query : QuerySpec
  hints : List Hint
  database : String
  collection : String
deriving DecidableEq

/-- The input dictionary of TestQuery.from_dict: each key either present
with a value of the expected shape or absent. -/
structure RawTestQuery where
  name : Option String
  query : Option QuerySpec
  hints : Option (List Hint)
  database : Option String
  collection : Option String
deriving DecidableEq

/-- TestQuery.from_dict (models.py lines 36 to 49): it checks only that the
database and collection keys are present, raising ValueError when one is
missing; it never looks at the values, so empty strings pass.  The
construction then reads data for name and data for query unconditionally,
raising KeyError when absent, and defaults hints to the empty list via
data.get. -/
def TestQuery.from_dict (data : RawTestQuery) : Except PyErr TestQuery :=
  if data.database.isNone then
    .error (.valueError "database is required")
  else if data.collection.isNone then
    .error (.valueError "collection is required")
  else
    match data.name with
    | none => .error (.keyError "name")
    | some n =>
      match data.query with
      | none => .error (.keyError "query")
      | some q =>
        .ok { name := n, query := q, hints := data.hints.getD [],
              database := data.database.getD "", collection := data.collection.getD "" }

/-- A minimal query dict: an empty filter and no optional keys. -/
def q0 : QuerySpec :=
  { filter := [], project := none, sort := none, skip := none, limit := none }

/-- An environment in which every database interaction succeeds: buildInfo
reports version 7.0, the cache clear succeeds, every find succeeds
returning two documents in one time unit, and every explain reports five
documents and three keys examined. -/
def envAllOk : DBEnv :=
  { buildInfo := .ok [7, 0]
    planCacheClear := none
    warmupFind := fun _ _ => none
    timedFind := fun _ _ => .ok 2
    elapsed := fun _ => 1
    explainStats := fun _ _ => .ok (5, 3) }

/-- An environment whose timed phase fails: warm-up succeeds, the timed
find succeeds on iteration 0 and raises a PyMongoError on iteration 1. -/
def envTimedFail : DBEnv :=
  { buildInfo := .ok [7, 0]
    planCacheClear := none
    warmupFind := fun _ _ => none
    timedFind := fun _ i => if i = 1 then .error (.pyMongo "boom") else .ok 3
    elapsed := fun _ => 1
    explainStats := fun _ _ => .ok (10, 5) }

/-- An error-free TestResult fixture used to drive the hint loop. -/
def trivialOkResult (h : Hint) : TestResult :=
  { query := q0, hint := h, iteration := 0, warmup_iteration := 0,
    sample_interval := 0, avg_time := 0, min_time := 0, max_time := 0,
    stdev_time := 0, error := none }

/-- A two-field hint in one key order. -/
def hintAB : Hint := [("a", 1), ("b", 2)]

/-- The same two (key, value) pairs in the other key order. -/
def hintBA : Hint := [("b", 2), ("a", 1)]

/-- Whether an Except value is a success, as a boolean. -/
def except_ok {α : Type} : Except PyErr α → Bool
  | .ok _ => true
  | .error _ => false

/-- A query dict with a truthy limit of 5 and no other optional key. -/
def qLim : QuerySpec :=
  { filter := [("a", 1)], project := none, sort := none, skip := none, limit := some 5 }

/-- Connection outcomes inducing two connection failures followed by a
success. -/
def cexConnectOutcome : Nat → Option PyErr :=
  fun attempt =>
    if attempt < 2 then some (.connectionFailure "connection refused") else none

/-- A configuration entry whose database value is present but empty. -/
def rawEmptyDb : RawTestQuery :=
  { name := some "q1", query := some q0, hints := some [],
    database := some "", collection := some "c" }

/-- An explain oracle that always fails, used to observe that disabled
sampling never consults the explain capability. -/
def explainBomb : Cursor → Nat → Except PyErr (Nat × Nat) :=
  fun _ _ => .error (.pyMongo "explain should never run")

/-- The samples produced by three successful timed iterations of envAllOk
with sampling disabled. -/
def sampleW : Samples :=
  { times := [1, 1, 1], docs_examined := [], keys_examined := [],
    docs_returned := [2, 2, 2] }

/-- The built cursor agrees with the builder rule as worded in the spec. -/
theorem build_query_cursor_eq_rule (query : QuerySpec) (index_hint : Hint) :
    build_query_cursor query index_hint = builder_rule_spec query index_hint := by
  unfold build_query_cursor builder_rule_spec
  cases h1 : truthy_opt_doc query.sort <;>
    cases h2 : truthy_opt_int query.skip <;>
      cases h3 : truthy_opt_int query.limit <;>
        cases h4 : index_hint.isEmpty <;>
          simp [h1, h2, h3, h4]

/-- Claim C7, amended: the timed phase and the explain call compose exactly
the query of the builder rule, so the counted execution and its explain see
the same query; the warm-up composes the same query but then overwrites the
cursor limit with 0 through its extra .limit(0), so it is not identical to
the timed query whenever the query has a truthy limit. -/
theorem timed_explain_share_builder (query : QuerySpec) (index_hint : Hint) :
    timed_phase_cursor query index_hint = builder_rule_spec query index_hint
    ∧ explain_cursor query index_hint = builder_rule_spec query index_hint
    ∧ warmup_cursor query index_hint
        = { builder_rule_spec query index_hint with limitN := 0 } := by
  refine ⟨build_query_cursor_eq_rule query index_hint,
          build_query_cursor_eq_rule query index_hint, ?_⟩
  unfold warmup_cursor
  rw [build_query_cursor_eq_rule]

/-- Claim C7, counterexample: for a query with limit 5, the warm-up cursor
differs from the timed cursor (its limit attribute is 0, not 5), so the
three composed queries are not all identical. -/
theorem warmup_query_overrides_limit :
    warmup_cursor qLim [] ≠ timed_phase_cursor qLim []
    ∧ timed_phase_cursor qLim [] = explain_cursor qLim []
    ∧ (timed_phase_cursor qLim []).limitN = 5
    ∧ (warmup_cursor qLim []).limitN = 0 := by
  refine ⟨by decide, rfl, by decide, by decide⟩

/-- Claim C2: the TestResult dataclass declares no avg_docs_returned field,
while the reducer passes an avg_docs_returned keyword to it, so on every
run that reaches reduction the construction raises TypeError instead of
returning a record carrying that average. -/
theorem test_result_missing_avg_docs_returned :
    "avg_docs_returned" ∈ calcResultKwargs
    ∧ "avg_docs_returned" ∉ testResultFields
    ∧ calculate_results q0 [] 1 0 0 [1] [] [] [2]
        = .error (.typeError "init got an unexpected keyword argument avg_docs_returned") := by
  refine ⟨by decide, by decide, rfl⟩

/-- Claim C1: on a run in which every database interaction succeeds, the
harness does raise to its caller: the TestResult construction in the reducer
raises TypeError (because of the avg_docs_returned keyword), and the
surrounding except clause catches only PyMongoError, so the exception
escapes test index performance. -/
theorem harness_success_path_raises_type_error :
    test_index_performance envAllOk "db" "coll" q0 [] 1 0 0
      = .error (.typeError "init got an unexpected keyword argument avg_docs_returned")
    ∧ (PyErr.typeError "init got an unexpected keyword argument avg_docs_returned").isPyMongo
        = false := by
  exact ⟨rfl, rfl⟩

/-- Claim C8: the name errors is not bound in the module namespace of
main.py, so when the first connection failure is raised, evaluating the
except clause raises NameError: with two induced connection failures
followed by a success, the loop performs no backoff sleep and crashes
instead of retrying. -/
theorem retry_loop_crashes_with_name_error :
    main_module_names.contains "errors" = false
    ∧ main_retry_loop cexConnectOutcome 3 2
        = .uncaught (.nameError "name errors is not defined") [] := by
  exact ⟨by decide, rfl⟩

/-- Claim C9, counterexample: with the default table format, producing the
output of a query whose trials all failed crashes: TableFormatter.format
reads results[0] for the title, which raises IndexError on the empty result
list. -/
theorem table_format_empty_crashes :
    save_results_format .table [] = .error (.indexError "list index out of range") := rfl

/-- Claim C9, amended: with the CSV and JSON formats an empty result list
yields an empty output block (the bare header line, and the empty JSON
array), but the table format, the default, raises IndexError on it. -/
theorem empty_results_formatting :
    csv_format [] = .ok { header := csvHeader, rows := [] }
    ∧ json_format [] = .ok []
    ∧ ∃ e, save_results_format .table [] = .error e := by
  exact ⟨rfl, rfl, ⟨.indexError "list index out of range", rfl⟩⟩

/-- Claim C10, counterexample: an entry whose database value is the empty
string passes the load: from_dict checks only key presence, so it returns a
TestQuery with an empty database instead of failing. -/
theorem empty_database_accepted :
    rawEmptyDb.database = some ""
    ∧ TestQuery.from_dict rawEmptyDb
        = .ok { name := "q1", query := q0, hints := [], database := "",
                collection := "c" } := by
  exact ⟨rfl, rfl⟩

/-- Claim C10, amended: the load fails with ValueError exactly when the
database key or the collection key is absent, regardless of the values;
when both keys are present together with name and query, the load succeeds
and preserves the given values, including empty strings. -/
theorem from_dict_checks_key_presence :
    (∀ data : RawTestQuery, data.database = none →
        TestQuery.from_dict data = .error (.valueError "database is required"))
    ∧ (∀ data : RawTestQuery, data.database ≠ none → data.collection = none →
        TestQuery.from_dict data = .error (.valueError "collection is required"))
    ∧ (∀ (n : String) (q : QuerySpec) (hs : Option (List Hint)) (db coll : String),
        TestQuery.from_dict
            { name := some n, query := some q, hints := hs,
              database := some db, collection := some coll }
          = .ok { name := n, query := q, hints := hs.getD [],
                  database := db, collection := coll }) := by
  refine ⟨?_, ?_, ?_⟩
  · intro data h
    unfold TestQuery.from_dict
    simp [h]
  · intro data h1 h2
    unfold TestQuery.from_dict
    simp [h1, h2, Option.isNone_iff_eq_none]
  · intro n q hs db coll
    rfl

/-- Witness for the amended claim C10, at an entry missing the database key
and at a fully populated entry. -/
theorem from_dict_checks_key_presence_witness :
    TestQuery.from_dict
        { name := none, query := none, hints := none, database := none,
          collection := some "c" }
      = .error (.valueError "database is required")
    ∧ TestQuery.from_dict
        { name := some "n", query := some q0, hints := none,
          database := some "d", collection := some "c" }
      = .ok { name := "n", query := q0, hints := [], database := "d",
              collection := "c" } := by
  exact ⟨from_dict_checks_key_presence.1 _ rfl,
         from_dict_checks_key_presence.2.2 "n" q0 none "d" "c"⟩

/-- Characterization of the hint loop when every run succeeds: the hints
actually executed are the first occurrences under plain tuple equality
relative to the already tested set, the tested set grows by exactly those
hints, and the kept results are their run results in order. -/
theorem hint_loop_eq (run : Hint → TestResult)
    (hall : ∀ h : Hint, (run h).error = none) :
    ∀ (l : List Hint) (st : HintLoopState),
      hint_loop run l st
        = { results := st.results ++ (dedup_first st.testedHints l).map run,
            testedHints := st.testedHints ++ dedup_first st.testedHints l,
            executed := st.executed ++ dedup_first st.testedHints l } := by
  intro l
  induction l with
  | nil => intro st; simp [hint_loop, dedup_first]
  | cons h rest ih =>
    intro st
    by_cases hmem : h ∈ st.testedHints
    · simp only [hint_loop, if_pos hmem, dedup_first]
      exact ih st
    · simp only [hint_loop, if_neg hmem, dedup_first, hall h, if_true]
      rw [ih]
      simp

/-- Claim C6, amended: the hint-level deduplication of main is keyed on the
ordered tuple of (key, value) pairs, tuple(hint.items()): when every run
succeeds, the hints executed for a query are exactly the first occurrences
of each tuple, so an exact repeat of an already tested hint is skipped,
while the same pairs in a different key order form a different tuple and
are run again. -/
theorem hint_dedup_exact_tuple (run : Hint → TestResult) (hints : List Hint)
    (hall : ∀ h : Hint, (run h).error = none) :
    (process_hints run hints).executed = dedup_first [] hints
    ∧ (process_hints run hints).results = (dedup_first [] hints).map run := by
  unfold process_hints
  rw [hint_loop_eq run hall]
  simp

/-- Witness for the amended claim C6: with an always-successful run over
the hint list [hintAB, hintBA, hintAB], exactly the first occurrences
[hintAB, hintBA] are executed; the exact repeat of hintAB is skipped, the
permuted hintBA is not. -/
theorem hint_dedup_exact_tuple_witness :
    (process_hints trivialOkResult [hintAB, hintBA, hintAB]).executed
      = [hintAB, hintBA] := by
  have h := (hint_dedup_exact_tuple trivialOkResult [hintAB, hintBA, hintAB]
    (fun _ => rfl)).1
  rw [h]
  decide

/-- Claim C6, counterexample: hintAB and hintBA consist of the same
(key, value) pairs in different key order, yet after hintAB has been tested
successfully, hintBA is not skipped: the harness is invoked for both. -/
theorem permuted_hint_not_skipped :
    hintAB.Perm hintBA
    ∧ hintAB ≠ hintBA
    ∧ (trivialOkResult hintAB).error = none
    ∧ (process_hints trivialOkResult [hintAB, hintBA]).executed = [hintAB, hintBA] := by
  refine ⟨by decide, by decide, rfl, rfl⟩

/-- With a non-positive sample interval the sampling guard is always
false. -/
theorem should_sample_of_nonpos {sample_interval : Int}
    (hsi : sample_interval ≤ 0) (i : Nat) (iterations : Int) :
    should_sample sample_interval i iterations = false := by
  unfold should_sample
  have h : decide (0 < sample_interval) = false := by
    simp only [decide_eq_false_iff_not]
    omega
  rw [h]
  rfl

/-- With sampling disabled the timed loop never consults the explain
oracle: its outcome is the same for any two explain oracles. -/
theorem testing_loop_explain_irrelevant (find : Nat → Except PyErr Nat)
    (elapsed : Nat → ℚ) (explain1 explain2 : Nat → Except PyErr (Nat × Nat))
    {sample_interval : Int} (iterations : Int) (hsi : sample_interval ≤ 0) :
    ∀ (l : List Nat) (acc : Samples),
      testing_loop find elapsed explain1 sample_interval iterations l acc
        = testing_loop find elapsed explain2 sample_interval iterations l acc := by
  intro l
  induction l with
  | nil => intro acc; rfl
  | cons i rest ih =>
    intro acc
    simp only [testing_loop, testing_step, should_sample_of_nonpos hsi]
    cases find i with
    | error e => rfl
    | ok c => simp only [Bool.false_eq_true, if_false]; exact ih _

/-- With sampling disabled the timed loop never extends the two examined
lists. -/
theorem testing_loop_no_examined (find : Nat → Except PyErr Nat)
    (elapsed : Nat → ℚ) (explain : Nat → Except PyErr (Nat × Nat))
    {sample_interval : Int} (iterations : Int) (hsi : sample_interval ≤ 0) :
    ∀ (l : List Nat) (acc samples : Samples),
      testing_loop find elapsed explain sample_interval iterations l acc = .ok samples →
      samples.docs_examined = acc.docs_examined
      ∧ samples.keys_examined = acc.keys_examined := by
  intro l
  induction l with
  | nil =>
    intro acc samples h
    simp only [testing_loop] at h
    cases h
    exact ⟨rfl, rfl⟩
  | cons i rest ih =>
    intro acc samples h
    simp only [testing_loop, testing_step, should_sample_of_nonpos hsi] at h
    cases hf : find i with
    | error e => rw [hf] at h; cases h
    | ok c =>
      rw [hf] at h
      simp only [Bool.false_eq_true, if_false] at h
      have h3 := ih _ samples h
      exact h3

/-- Claim C5: a run invoked with a non-positive sample interval never makes
the explain call (the outcome of the timed phase is unchanged under any
replacement of the explain oracle), and when the timed phase completes, the
two examined-sample lists are empty, so the two averages the reducer
computes from them are exactly zero, however many timed iterations ran. -/
theorem nonpositive_sample_interval_disables_sampling (env : DBEnv)
    (g : Cursor → Nat → Except PyErr (Nat × Nat)) (query : QuerySpec)
    (index_hint : Hint) (iterations sample_interval : Int)
    (hsi : sample_interval ≤ 0) :
    perform_testing { env with explainStats := g } query index_hint iterations
        sample_interval
      = perform_testing env query index_hint iterations sample_interval
    ∧ ∀ samples,
        perform_testing env query index_hint iterations sample_interval
          = .ok samples →
        samples.docs_examined = [] ∧ samples.keys_examined = []
        ∧ mean_or_zero samples.docs_examined = 0
        ∧ mean_or_zero samples.keys_examined = 0 := by
  constructor
  · unfold perform_testing
    exact testing_loop_explain_irrelevant _ _ _ _ _ hsi _ _
  · intro samples h
    unfold perform_testing at h
    have h2 := testing_loop_no_examined _ _ _ _ hsi _ _ _ h
    refine ⟨h2.1, h2.2, ?_, ?_⟩
    · rw [h2.1]; rfl
    · rw [h2.2]; rfl

/-- Witness for claim C5: three timed iterations of the all-success
environment with sample interval 0 are insensitive to replacing the explain
oracle by one that always fails, and produce empty examined lists with zero
averages. -/
theorem nonpositive_sample_interval_witness :
    perform_testing { envAllOk with explainStats := explainBomb } q0 [] 3 0
      = perform_testing envAllOk q0 [] 3 0
    ∧ sampleW.docs_examined = [] ∧ sampleW.keys_examined = []
    ∧ mean_or_zero sampleW.docs_examined = 0
    ∧ mean_or_zero sampleW.keys_examined = 0 := by
  have h := nonpositive_sample_interval_disables_sampling envAllOk explainBomb
    q0 [] 3 0 (by decide)
  exact ⟨h.1, h.2 sampleW rfl⟩

/-- Splitting range n at an interior point k. -/
theorem range_split_at (n k : Nat) (h : k < n) :
    List.range n = List.range k ++ k :: List.range' (k + 1) (n - (k + 1)) := by
  have h1 := List.range'_append_1 0 k (n - k)
  rw [Nat.zero_add, Nat.sub_add_cancel (Nat.le_of_lt h)] at h1
  have h2 : List.range' k (n - k) = k :: List.range' (k + 1) (n - (k + 1)) := by
    have h3 : n - k = (n - (k + 1)) + 1 := by omega
    rw [h3, List.range'_succ]
  simp only [List.range_eq_range']
  rw [← h1, h2]

/-- The warm-up loop over a concatenation runs the second part only when
the first part succeeded. -/
theorem warmup_loop_append (find : Nat → Option PyErr) (l1 l2 : List Nat) :
    warmup_loop find (l1 ++ l2)
      = match warmup_loop find l1 with
        | .ok _ => warmup_loop find l2
        | .error e => .error e := by
  induction l1 with
  | nil => rfl
  | cons i rest ih =>
    simp only [List.cons_append, warmup_loop]
    cases find i with
    | some e => rfl
    | none => exact ih

/-- The warm-up loop succeeds when every iteration succeeds. -/
theorem warmup_loop_ok (find : Nat → Option PyErr) (l : List Nat)
    (h : ∀ i ∈ l, find i = none) : warmup_loop find l = .ok () := by
  induction l with
  | nil => rfl
  | cons i rest ih =>
    simp only [warmup_loop, h i (List.mem_cons_self i rest)]
    exact ih (fun j hj => h j (List.mem_cons_of_mem i hj))

/-- The warm-up loop fails at its head when the head iteration fails. -/
theorem warmup_loop_error_at_head (find : Nat → Option PyErr) (k : Nat)
    (rest : List Nat) (e : PyErr) (hf : find k = some e) :
    warmup_loop find (k :: rest) = .error e := by
  simp only [warmup_loop, hf]

/-- The timed loop over a concatenation runs the second part only when the
first part succeeded. -/
theorem testing_loop_append (find : Nat → Except PyErr Nat) (elapsed : Nat → ℚ)
    (explain : Nat → Except PyErr (Nat × Nat)) (si its : Int) (l1 l2 : List Nat)
    (acc : Samples) :
    testing_loop find elapsed explain si its (l1 ++ l2) acc
      = match testing_loop find elapsed explain si its l1 acc with
        | .ok acc2 => testing_loop find elapsed explain si its l2 acc2
        | .error e => .error e := by
  induction l1 generalizing acc with
  | nil => rfl
  | cons i rest ih =>
    simp only [List.cons_append, testing_loop]
    cases testing_step find elapsed explain si its acc i with
    | error e => rfl
    | ok acc2 => exact ih acc2

/-- The timed loop succeeds when every iteration finds successfully and
every sampled iteration explains successfully. -/
theorem testing_loop_all_ok (find : Nat → Except PyErr Nat) (elapsed : Nat → ℚ)
    (explain : Nat → Except PyErr (Nat × Nat)) (si its : Int) (l : List Nat)
    (hfind : ∀ i ∈ l, except_ok (find i) = true)
    (hexp : ∀ i ∈ l, should_sample si i its = true → except_ok (explain i) = true) :
    ∀ acc, ∃ acc2, testing_loop find elapsed explain si its l acc = .ok acc2 := by
  induction l with
  | nil => intro acc; exact ⟨acc, rfl⟩
  | cons i rest ih =>
    intro acc
    have ihr := ih (fun j hj => hfind j (List.mem_cons_of_mem i hj))
      (fun j hj => hexp j (List.mem_cons_of_mem i hj))
    have h1 := hfind i (List.mem_cons_self i rest)
    cases hfi : find i with
    | error e => rw [hfi] at h1; simp [except_ok] at h1
    | ok c =>
      by_cases hs : should_sample si i its = true
      · have h2 := hexp i (List.mem_cons_self i rest) hs
        cases hex : explain i with
        | error e => rw [hex] at h2; simp [except_ok] at h2
        | ok st =>
          simp only [testing_loop, testing_step, hfi, hex, hs, if_true]
          exact ihr _
      · have hs2 : should_sample si i its = false := by
          revert hs; cases should_sample si i its <;> simp
        simp only [testing_loop, testing_step, hfi, hs2, Bool.false_eq_true, if_false]
        exact ihr _

/-- The timed loop fails at its head when the head find fails. -/
theorem testing_loop_error_at_head (find : Nat → Except PyErr Nat)
    (elapsed : Nat → ℚ) (explain : Nat → Except PyErr (Nat × Nat)) (si its : Int)
    (k : Nat) (rest : List Nat) (acc : Samples) (e : PyErr)
    (hf : find k = .error e) :
    testing_loop find elapsed explain si its (k :: rest) acc = .error e := by
  simp only [testing_loop, testing_step, hf]

/-- Claim C4: a PyMongoError query-execution failure during the warm-up
phase or the timed phase aborts the remaining iterations (nothing after the
failing iteration is consulted, since the environment beyond it is
arbitrary), and the harness returns, without raising, the except-branch
TestResult: error set to the failure message and every numeric field at its
zero default. -/
theorem query_failure_yields_error_result :
    (∀ (env : DBEnv) (db coll : String) (query : QuerySpec) (index_hint : Hint)
       (iterations warmup_iterations sample_interval : Int) (k : Nat) (e : PyErr),
       clear_plan_cache env db coll = .ok () →
       k < warmup_iterations.toNat →
       (∀ i < k, env.warmupFind (warmup_cursor query index_hint) i = none) →
       env.warmupFind (warmup_cursor query index_hint) k = some e →
       e.isPyMongo = true →
       test_index_performance env db coll query index_hint iterations
           warmup_iterations sample_interval
         = .ok (error_test_result query index_hint iterations warmup_iterations
             sample_interval e.str))
    ∧ (∀ (env : DBEnv) (db coll : String) (query : QuerySpec) (index_hint : Hint)
         (iterations warmup_iterations sample_interval : Int) (k : Nat) (e : PyErr),
         clear_plan_cache env db coll = .ok () →
         (∀ i < warmup_iterations.toNat,
            env.warmupFind (warmup_cursor query index_hint) i = none) →
         k < iterations.toNat →
         (∀ j < k, except_ok
            (env.timedFind (timed_phase_cursor query index_hint) j) = true) →
         (∀ j < k, should_sample sample_interval j iterations = true →
            except_ok (env.explainStats (explain_cursor query index_hint) j) = true) →
         env.timedFind (timed_phase_cursor query index_hint) k = .error e →
         e.isPyMongo = true →
         test_index_performance env db coll query index_hint iterations
             warmup_iterations sample_interval
           = .ok (error_test_result query index_hint iterations warmup_iterations
               sample_interval e.str))
    ∧ (∀ (query : QuerySpec) (index_hint : Hint) (its w si : Int) (msg : String),
        (error_test_result query index_hint its w si msg).error = some msg
        ∧ (error_test_result query index_hint its w si msg).avg_time = 0
        ∧ (error_test_result query index_hint its w si msg).min_time = 0
        ∧ (error_test_result query index_hint its w si msg).max_time = 0
        ∧ (error_test_result query index_hint its w si msg).stdev_time = 0
        ∧ (error_test_result query index_hint its w si msg).percentile_95 = 0
        ∧ (error_test_result query index_hint its w si msg).percentile_99 = 0
        ∧ (error_test_result query index_hint its w si msg).avg_docs_examined = 0
        ∧ (error_test_result query index_hint its w si msg).avg_keys_examined = 0) := by
  refine ⟨?_, ?_, ?_⟩
  · intro env db coll query index_hint iterations warmup_iterations sample_interval
      k e hclear hk hw hfail hpm
    have hwl : perform_warmup env query index_hint warmup_iterations = .error e := by
      unfold perform_warmup
      rw [range_split_at warmup_iterations.toNat k hk, warmup_loop_append]
      rw [warmup_loop_ok _ _ (fun i hi => hw i (List.mem_range.mp hi))]
      exact warmup_loop_error_at_head _ _ _ _ hfail
    unfold test_index_performance run_harness_body
    simp only [hclear, hwl, hpm, if_true]
  · intro env db coll query index_hint iterations warmup_iterations sample_interval
      k e hclear hw hk hfind hexp hfail hpm
    have hwl : perform_warmup env query index_hint warmup_iterations = .ok () :=
      warmup_loop_ok _ _ (fun i hi => hw i (List.mem_range.mp hi))
    have htl : perform_testing env query index_hint iterations sample_interval
        = .error e := by
      unfold perform_testing
      rw [range_split_at iterations.toNat k hk, testing_loop_append]
      obtain ⟨acc2, hacc2⟩ := testing_loop_all_ok
        (env.timedFind (timed_phase_cursor query index_hint)) env.elapsed
        (env.explainStats (explain_cursor query index_hint))
        sample_interval iterations (List.range k)
        (fun j hj => hfind j (List.mem_range.mp hj))
        (fun j hj hs => hexp j (List.mem_range.mp hj) hs)
        { times := [], docs_examined := [], keys_examined := [], docs_returned := [] }
      simp only [hacc2]
      exact testing_loop_error_at_head _ _ _ _ _ _ _ _ _ hfail
    unfold test_index_performance run_harness_body
    simp only [hclear, hwl, htl, hpm, if_true]
  · intro query index_hint its w si msg
    exact ⟨rfl, rfl, rfl, rfl, rfl, rfl, rfl, rfl, rfl⟩

/-- Witness for claim C4: in the environment whose timed find fails with a
PyMongoError on iteration 1, a run with 3 iterations, 2 warm-up iterations
and sample interval 1 returns the error TestResult carrying the failure
message. -/
theorem query_failure_yields_error_result_witness :
    test_index_performance envTimedFail "db" "coll" q0 [] 3 2 1
      = .ok (error_test_result q0 [] 3 2 1 "boom") :=
  query_failure_yields_error_result.2.1 envTimedFail "db" "coll" q0 [] 3 2 1 1
    (.pyMongo "boom") rfl (by decide) (by decide) (by decide) (by decide) rfl rfl

/-- In a sorted list, getD at smaller in-range indices is smaller. -/
theorem sorted_getD_mono (s : List ℚ) (hs : List.Sorted (· ≤ ·) s) (p q : Nat)
    (hpq : p ≤ q) (hq : q < s.length) : s.getD p 0 ≤ s.getD q 0 := by
  have hp : p < s.length := Nat.lt_of_le_of_lt hpq hq
  rw [List.getD_eq_getElem?_getD, List.getElem?_eq_getElem hp,
      List.getD_eq_getElem?_getD, List.getElem?_eq_getElem hq]
  simpa using List.Sorted.rel_get_of_le hs (a := ⟨p, hp⟩) (b := ⟨q, hq⟩) hpq

/-- For 95 and higher cut points on 5 or more data points, the unclamped
quantile index is at least 1. -/
theorem qe_jraw_pos (ld i : Nat) (h5 : 5 ≤ ld) (hi : 95 ≤ i) :
    1 ≤ i * (ld + 1) / 100 := by
  have h0 : 95 * 6 ≤ i * (ld + 1) := Nat.mul_le_mul hi (by omega)
  have h2 : (100 : Nat) / 100 ≤ i * (ld + 1) / 100 :=
    Nat.div_le_div_right (by omega)
  simpa using h2

/-- The clamped quantile index is at least 1. -/
theorem qe_j_pos (ld i : Nat) (h5 : 5 ≤ ld) (hi : 95 ≤ i) : 1 ≤ qe_j ld i := by
  unfold qe_j
  have h1 := qe_jraw_pos ld i h5 hi
  split_ifs <;> omega

/-- The clamped quantile index is at most ld - 1. -/
theorem qe_j_le (ld i : Nat) (h5 : 5 ≤ ld) : qe_j ld i ≤ ld - 1 := by
  unfold qe_j
  split_ifs <;> omega

/-- The clamped quantile index never exceeds the unclamped one. -/
theorem qe_j_le_jraw (ld i : Nat) (h5 : 5 ≤ ld) (hi : 95 ≤ i) :
    qe_j ld i ≤ i * (ld + 1) / 100 := by
  unfold qe_j
  have h1 := qe_jraw_pos ld i h5 hi
  split_ifs <;> omega

/-- The clamped quantile index either equals the unclamped one or was
clamped down to ld - 1. -/
theorem qe_j_eq_jraw_or (ld i : Nat) (h5 : 5 ≤ ld) (hi : 95 ≤ i) :
    qe_j ld i = i * (ld + 1) / 100 ∨ qe_j ld i = ld - 1 := by
  unfold qe_j
  have h1 := qe_jraw_pos ld i h5 hi
  split_ifs
  · exfalso; omega
  · right; rfl
  · left; rfl

/-- The clamped quantile index is monotone in the cut point. -/
theorem qe_j_mono (ld : Nat) {i1 i2 : Nat} (h5 : 5 ≤ ld) (h12 : i1 ≤ i2) :
    qe_j ld i1 ≤ qe_j ld i2 := by
  unfold qe_j
  have hm : i1 * (ld + 1) / 100 ≤ i2 * (ld + 1) / 100 :=
    Nat.div_le_div_right (Nat.mul_le_mul_right _ h12)
  split_ifs <;> omega

/-- The quantile delta is never negative for high cut points. -/
theorem qe_delta_nonneg (ld i : Nat) (h5 : 5 ≤ ld) (hi : 95 ≤ i) :
    0 ≤ qe_delta ld i := by
  have h1 : qe_j ld i ≤ i * (ld + 1) / 100 := qe_j_le_jraw ld i h5 hi
  have h2 : (i * (ld + 1) / 100) * 100 ≤ i * (ld + 1) := Nat.div_mul_le_self _ _
  unfold qe_delta
  omega

/-- When the quantile index was not clamped, the delta stays below 100. -/
theorem qe_delta_lt_100 (ld i : Nat) (hj : qe_j ld i = i * (ld + 1) / 100) :
    qe_delta ld i < 100 := by
  unfold qe_delta
  rw [hj]
  have h1 := Nat.div_add_mod (i * (ld + 1)) 100
  have h2 : i * (ld + 1) % 100 < 100 := Nat.mod_lt _ (by norm_num)
  omega

/-- The interpolated quantile value is at least its left data point. -/
theorem quantile_ge_left (s : List ℚ) (hs : List.Sorted (· ≤ ·) s)
    (h5 : 5 ≤ s.length) (i : Nat) (hi : 95 ≤ i) :
    s.getD (qe_j s.length i - 1) 0 ≤ quantile_exclusive s i := by
  have hjle : qe_j s.length i ≤ s.length - 1 := qe_j_le s.length i h5
  have hd0 : (0 : ℚ) ≤ ((qe_delta s.length i : Int) : ℚ) := by
    exact_mod_cast qe_delta_nonneg s.length i h5 hi
  have hab : s.getD (qe_j s.length i - 1) 0 ≤ s.getD (qe_j s.length i) 0 :=
    sorted_getD_mono s hs _ _ (by omega) (by omega)
  unfold quantile_exclusive
  rw [le_div_iff₀ (by norm_num : (0 : ℚ) < 100)]
  nlinarith [mul_nonneg hd0 (sub_nonneg.mpr hab)]

/-- When the delta is at most 100, the interpolated quantile value is at
most its right data point. -/
theorem quantile_le_right (s : List ℚ) (hs : List.Sorted (· ≤ ·) s)
    (h5 : 5 ≤ s.length) (i : Nat) (_hi : 95 ≤ i)
    (hd100 : qe_delta s.length i ≤ 100) :
    quantile_exclusive s i ≤ s.getD (qe_j s.length i) 0 := by
  have hjle : qe_j s.length i ≤ s.length - 1 := qe_j_le s.length i h5
  have hd100q : ((qe_delta s.length i : Int) : ℚ) ≤ 100 := by exact_mod_cast hd100
  have hab : s.getD (qe_j s.length i - 1) 0 ≤ s.getD (qe_j s.length i) 0 :=
    sorted_getD_mono s hs _ _ (by omega) (by omega)
  unfold quantile_exclusive
  rw [div_le_iff₀ (by norm_num : (0 : ℚ) < 100)]
  nlinarith [mul_nonneg (sub_nonneg.mpr hd100q) (sub_nonneg.mpr hab)]

/-- The exclusive quantile of sorted data is monotone in the cut point,
from cut point 95 on. -/
theorem quantile_exclusive_mono (s : List ℚ) (hs : List.Sorted (· ≤ ·) s)
    (h5 : 5 ≤ s.length) (i1 i2 : Nat) (h95 : 95 ≤ i1) (h12 : i1 ≤ i2) :
    quantile_exclusive s i1 ≤ quantile_exclusive s i2 := by
  have h95b : 95 ≤ i2 := le_trans h95 h12
  have hjm : qe_j s.length i1 ≤ qe_j s.length i2 := qe_j_mono s.length h5 h12
  rcases eq_or_lt_of_le hjm with hje | hjlt
  · have hd12 : qe_delta s.length i1 ≤ qe_delta s.length i2 := by
      unfold qe_delta
      rw [hje]
      have hmul : i1 * (s.length + 1) ≤ i2 * (s.length + 1) :=
        Nat.mul_le_mul_right _ h12
      omega
    have hjle : qe_j s.length i2 ≤ s.length - 1 := qe_j_le s.length i2 h5
    have hab : s.getD (qe_j s.length i2 - 1) 0 ≤ s.getD (qe_j s.length i2) 0 :=
      sorted_getD_mono s hs _ _ (by omega) (by omega)
    have hd12q : ((qe_delta s.length i1 : Int) : ℚ) ≤ ((qe_delta s.length i2 : Int) : ℚ) := by
      exact_mod_cast hd12
    unfold quantile_exclusive
    rw [hje, div_le_div_iff₀ (by norm_num : (0 : ℚ) < 100) (by norm_num : (0 : ℚ) < 100)]
    nlinarith [mul_nonneg (sub_nonneg.mpr hd12q) (sub_nonneg.mpr hab)]
  · have hj1unc : qe_j s.length i1 = i1 * (s.length + 1) / 100 := by
      rcases qe_j_eq_jraw_or s.length i1 h5 h95 with h | h
      · exact h
      · exfalso
        have h2 := qe_j_le s.length i2 h5
        omega
    have hd1lt : qe_delta s.length i1 < 100 := qe_delta_lt_100 s.length i1 hj1unc
    have h1 := quantile_le_right s hs h5 i1 h95 (le_of_lt hd1lt)
    have h2 := quantile_ge_left s hs h5 i2 h95b
    have hjle2 : qe_j s.length i2 ≤ s.length - 1 := qe_j_le s.length i2 h5
    have h3 : s.getD (qe_j s.length i1) 0 ≤ s.getD (qe_j s.length i2 - 1) 0 :=
      sorted_getD_mono s hs _ _ (by omega) (by omega)
    linarith

/-- Claim C3, amended: with fewer than 5 timed samples both percentiles are
exactly 0.0; with 5 or more samples both are computed by sorting the times
and interpolating at the 95th and 99th of 100 quantile cut points, both are
at least the minimum of the sequence, and the 99th is at least the 95th.
They are however not bounded by the maximum of the sequence: the exclusive
quantile method of the standard library extrapolates past the largest
sample whenever the cut index is clamped, so the claimed upper bound fails
(see the counterexample at five samples). -/
theorem percentile_policy (times : List ℚ) :
    (times.length < 5 → percentile_95 times = 0 ∧ percentile_99 times = 0)
    ∧ (5 ≤ times.length →
        py_min_time times ≤ percentile_95 times
        ∧ py_min_time times ≤ percentile_99 times
        ∧ percentile_95 times ≤ percentile_99 times) := by
  constructor
  · intro h
    unfold percentile_95 percentile_99
    rw [if_neg (by omega), if_neg (by omega)]
    exact ⟨rfl, rfl⟩
  · intro h5
    have hlen : (pySorted times).length = times.length :=
      (List.perm_insertionSort _ times).length_eq
    have hs : List.Sorted (· ≤ ·) (pySorted times) :=
      List.sorted_insertionSort _ times
    have h5s : 5 ≤ (pySorted times).length := by omega
    have hmin95 : py_min_time times ≤ percentile_95 times := by
      unfold percentile_95 py_min_time
      rw [if_pos h5]
      have h1 := quantile_ge_left (pySorted times) hs h5s 95 (le_refl 95)
      have hj := qe_j_le (pySorted times).length 95 h5s
      have h2 : (pySorted times).getD 0 0
          ≤ (pySorted times).getD (qe_j (pySorted times).length 95 - 1) 0 :=
        sorted_getD_mono _ hs _ _ (Nat.zero_le _) (by omega)
      linarith
    have hmin99 : py_min_time times ≤ percentile_99 times := by
      unfold percentile_99 py_min_time
      rw [if_pos h5]
      have h1 := quantile_ge_left (pySorted times) hs h5s 99 (by norm_num)
      have hj := qe_j_le (pySorted times).length 99 h5s
      have h2 : (pySorted times).getD 0 0
          ≤ (pySorted times).getD (qe_j (pySorted times).length 99 - 1) 0 :=
        sorted_getD_mono _ hs _ _ (Nat.zero_le _) (by omega)
      linarith
    refine ⟨hmin95, hmin99, ?_⟩
    unfold percentile_95 percentile_99
    rw [if_pos h5, if_pos h5]
    exact quantile_exclusive_mono (pySorted times) hs h5s 95 99 (le_refl 95)
      (by norm_num)

/-- Witness for the amended claim C3: both parts instantiated, at a
three-sample list and at a five-sample list. -/
theorem percentile_policy_witness :
    (percentile_95 [3, 1, 2] = 0 ∧ percentile_99 [3, 1, 2] = 0)
    ∧ (py_min_time [1, 2, 3, 4, 5] ≤ percentile_95 [1, 2, 3, 4, 5]
       ∧ py_min_time [1, 2, 3, 4, 5] ≤ percentile_99 [1, 2, 3, 4, 5]
       ∧ percentile_95 [1, 2, 3, 4, 5] ≤ percentile_99 [1, 2, 3, 4, 5]) :=
  ⟨(percentile_policy [3, 1, 2]).1 (by decide),
   (percentile_policy [1, 2, 3, 4, 5]).2 (by decide)⟩

/-- Claim C3, counterexample: on the five timed samples 1, 2, 3, 4, 5 the
95th percentile evaluates to 5.7, strictly above the maximum 5 of the
sequence, so the claimed bound that both percentiles lie within [min, max]
is false. -/
theorem percentile_exceeds_max :
    5 ≤ ([1, 2, 3, 4, 5] : List ℚ).length
    ∧ py_max_time [1, 2, 3, 4, 5] = 5
    ∧ percentile_95 [1, 2, 3, 4, 5] = 57 / 10
    ∧ py_max_time [1, 2, 3, 4, 5] < percentile_95 [1, 2, 3, 4, 5] := by
  have hsorted : pySorted [1, 2, 3, 4, 5] = [1, 2, 3, 4, 5] := by decide
  have hmax : py_max_time [1, 2, 3, 4, 5] = 5 := by
    unfold py_max_time
    rw [hsorted]
    rfl
  have hp : percentile_95 [1, 2, 3, 4, 5] = 57 / 10 := by
    unfold percentile_95
    rw [if_pos (by decide)]
    unfold quantile_exclusive
    rw [hsorted]
    norm_num [qe_j, qe_delta]
  refine ⟨by decide, hmax, hp, ?_⟩
  rw [hmax, hp]
  norm_num
